import Mathlib

/-!
Verification of the WakeWander streaming conversation controller
(`src/WakeWander-frontend/src/lib/api.ts` and
`src/WakeWander-frontend/src/app/page.tsx`).

The framed event decoder is modelled over text chunks (`List Char`),
i.e. after the `TextDecoder` step.  `JSON.parse` is an external runtime
facility, so the decoder is parametrised by a parsing function
`parse : List Char → Option α`; a frame whose payload the parser rejects
corresponds to the `catch` branch of the source (the frame is dropped and
the loop continues).

React component state is modelled by explicit state passing: each handler
is a function from the previous state (plus the transport response it
consumes) to the next state, paired with the network request it issues,
if any.  JavaScript truthiness of optional strings (`null`/`undefined`
and `""` are falsy) is modelled by `strTruthy` and `jsOrElse`.

One closure subtlety is modelled explicitly: `handleStreamEvent` is a
closure over the render-time `conversationId` const, which React does not
refresh while the `for await` loop of a session is running, so the guard
at page.tsx line 139 reads the *stream-start snapshot* of the identifier
for every event of the session, while `setConversationId` commits an
absolute write (successive writes overwrite).  The snapshot is passed as
an explicit `snapshot` argument, held constant across a session's fold;
every other state access in the fold is an absolute or functional update
and needs no snapshot.
-/

namespace WakeWander

/-- Mirrors `buffer.split('\n')` followed by `buffer = lines.pop() || ''`:
the first component is the list of newline-terminated lines, the second is
the trailing unterminated remainder. -/
def splitLines : List Char → List (List Char) × List Char
  | [] => ([], [])
  | c :: rest =>
    if c = '\n' then
      let p := splitLines rest
      ([] :: p.1, p.2)
    else
      match splitLines rest with
      | ([], r) => ([], c :: r)
      | (l :: ls, r) => ((c :: l) :: ls, r)

/-- The literal frame marker `'data: '` of the source (6 characters). -/
def dataMarker : List Char := "data: ".toList

/-- The body of the `for (const line of lines)` loop in `streamChat` /
`resumeChat` (api.ts lines 42-50 and 82-90): a line is handed to
`JSON.parse(line.slice(6))` only when it starts with `'data: '`; a parse
failure drops the frame and continues. -/
def processLine (parse : List Char → Option α) (line : List Char) : List α :=
  if dataMarker.isPrefixOf line then
    match parse (line.drop 6) with
    | some e => [e]
    | none => []
  else []

/-- Processing of a batch of complete lines, in order. -/
def emitLines (parse : List Char → Option α) : List (List Char) → List α
  | [] => []
  | l :: ls => processLine parse l ++ emitLines parse ls

/-- The `while (true) { ... reader.read() ... }` loop of `streamChat`
(api.ts lines 33-51): each chunk is appended to the buffer, the buffer is
split on newlines, the trailing part is retained, and the complete lines
are processed; at end-of-stream the loop breaks, discarding the buffer. -/
def streamChatLoop (parse : List Char → Option α) :
    List (List Char) → List Char → List α
  | [], _buffer => []
  | chunk :: rest, buffer =>
    let p := splitLines (buffer ++ chunk)
    emitLines parse p.1 ++ streamChatLoop parse rest p.2

/-- The read loop of `resumeChat` (api.ts lines 73-91), translated
separately from its own source text. -/
def resumeChatLoop (parse : List Char → Option α) :
    List (List Char) → List Char → List α
  | [], _buffer => []
  | chunk :: rest, buffer =>
    let p := splitLines (buffer ++ chunk)
    emitLines parse p.1 ++ resumeChatLoop parse rest p.2

/-- Concatenation of the text chunks of a transport response. -/
def concatChunks : List (List Char) → List Char
  | [] => []
  | c :: cs => c ++ concatChunks cs

/-- A transport response: the HTTP status and the body's text chunks in
the order and split in which `reader.read()` delivers them. -/
structure TransportResponse where
  status : Nat
  chunks : List (List Char)
  deriving DecidableEq

/-- `response.ok` of the fetch API: status in the inclusive range 200-299. -/
def respOk (r : TransportResponse) : Bool :=
  decide (200 ≤ r.status) && decide (r.status ≤ 299)

/-- `streamChat` (api.ts lines 17-52): on a non-ok response it throws
before any event is produced; otherwise it yields the events decoded by
its read loop from a fresh empty buffer. -/
def streamChat (parse : List Char → Option α) (resp : TransportResponse) :
    Except String (List α) :=
  if respOk resp then Except.ok (streamChatLoop parse resp.chunks [])
  else Except.error ("HTTP error! status: " ++ toString resp.status)

/-- `resumeChat` (api.ts lines 54-92): same failure-fast check and read
loop, translated from its own source text. -/
def resumeChat (parse : List Char → Option α) (resp : TransportResponse) :
    Except String (List α) :=
  if respOk resp then Except.ok (resumeChatLoop parse resp.chunks [])
  else Except.error ("HTTP error! status: " ++ toString resp.status)

/-- The only part of an event's `data` payload the fold inspects
(`event.data?.season`, page.tsx line 199); the rest is opaque. -/
structure EventData where
  season : Option String := none
  deriving DecidableEq

/-- A destination option as inspected by the fold: only `option.name`
(page.tsx line 117) is read; the rest is presentation. -/
structure DestOption where
  name : Option String := none
  deriving DecidableEq

/-- `StreamEvent` (api.ts lines 3-15).  `budget_allocation` is passed
through opaquely and is modelled by an opaque token. -/
structure StreamEvent where
  type : String
  step : Option String := none
  content : Option String := none
  conversation_id : Option String := none
  data : Option EventData := none
  interrupt_type : Option String := none
  question : Option String := none
  field : Option String := none
  options : Option (List DestOption) := none
  missing_info : Option (List String) := none
  budget_allocation : Option Nat := none
  deriving DecidableEq

/-- The `data` payload attached to a log entry: either the event's
opaque `data` (progress cases), the whole event (`result` case, page.tsx
line 250), or the interrupt view record (page.tsx lines 180-185). -/
inductive MsgData where
  | payload (d : EventData)
  | fullEvent (e : StreamEvent)
  | interruptView (t : Option String) (options : Option (List DestOption))
      (f : Option String) (b : Option Nat)
  deriving DecidableEq

/-- A `Message` log entry (page.tsx lines 8-15), without the locally
unique id and timestamp, which no claim inspects. -/
structure Message where
  type : String
  step : Option String := none
  content : String
  data : Option MsgData := none
  deriving DecidableEq

/-- `InterruptData` (page.tsx lines 17-24) as captured at page.tsx lines
166-173; `type` holds `event.interrupt_type` (a cast in the source). -/
structure InterruptData where
  type : Option String := none
  question : String := ""
  field : Option String := none
  options : Option (List DestOption) := none
  missing_info : Option (List String) := none
  budget_allocation : Option Nat := none
  deriving DecidableEq

/-- The component state of `Home` (page.tsx lines 48-63) relevant to the
conversation state machine. -/
structure AppState where
  messages : List Message
  input : String
  isLoading : Bool
  conversationId : Option String
  currentStep : Nat
  interruptData : Option InterruptData
  userResponse : String
  selectedSeason : Option String
  deriving DecidableEq

/-- `addMessage` (page.tsx lines 69-78): append-only. -/
def addMessage (s : AppState) (m : Message) : AppState :=
  { s with messages := s.messages ++ [m] }

/-- JavaScript truthiness of an optional string: `null`/`undefined` and
the empty string are falsy. -/
def strTruthy : Option String → Bool
  | none => false
  | some s => !s.isEmpty

/-- JavaScript `o || d` for an optional string `o`: the fallback is used
when `o` is absent or empty. -/
def jsOrElse (o : Option String) (d : String) : String :=
  match o with
  | none => d
  | some s => if s.isEmpty then d else s

/-- JavaScript `s.trim()`: strip leading and trailing whitespace. -/
def jsTrim (s : String) : String :=
  String.mk (((s.data.dropWhile fun c => c.isWhitespace).reverse.dropWhile
    fun c => c.isWhitespace).reverse)

/-- `haystack.includes(needle)` on strings. -/
def containsSub (needle hay : List Char) : Bool :=
  hay.tails.any (fun t => needle.isPrefixOf t)

/-- An interrupt answer value: a zero-based option index or a raw string
scalar. -/
inductive JsValue where
  | num (n : Nat)
  | str (s : String)
  deriving DecidableEq

/-- JavaScript `String(value)` / string interpolation of a `JsValue`. -/
def jsString : JsValue → String
  | JsValue.num n => toString n
  | JsValue.str s => s

/-- Body of `{message, conversation_id: conversationId || null}`
(api.ts line 24, with the argument from page.tsx line 94). -/
structure ChatRequest where
  message : String
  conversation_id : Option String
  deriving DecidableEq

/-- Body of `{conversation_id, value}` (api.ts lines 61-64). -/
structure ResumeRequest where
  conversation_id : String
  value : JsValue
  deriving DecidableEq

/-- page.tsx lines 139-141: `if (event.conversation_id && !conversationId)
setConversationId(event.conversation_id)`.  The guard's `conversationId`
is the render-time closure value — constant for the whole stream session —
passed here as `snapshot`; the write commits into the threaded state `s`
(an absolute write, so successive writes overwrite). -/
def bindConversationId (snapshot : Option String) (event : StreamEvent)
    (s : AppState) : AppState :=
  if strTruthy event.conversation_id && !(strTruthy snapshot) then
    { s with conversationId := event.conversation_id }
  else s

/-- `case 'system'` (page.tsx lines 144-148): non-empty content not
containing "Starting" or "Processing" is logged. -/
def caseSystem (event : StreamEvent) (s : AppState) : AppState :=
  match event.content with
  | some c =>
    if !c.isEmpty && !containsSub "Starting".toList c.toList
        && !containsSub "Processing".toList c.toList then
      addMessage s { type := "system", content := c }
    else s
  | none => s

/-- `case 'message'` (page.tsx lines 150-155): truthy content is logged
as a system entry. -/
def caseMessage (event : StreamEvent) (s : AppState) : AppState :=
  match event.content with
  | some c => if !c.isEmpty then addMessage s { type := "system", content := c } else s
  | none => s

/-- `case 'interrupt'` (page.tsx lines 161-187): stop loading, capture
the interrupt context, and append an interrupt entry. -/
def caseInterrupt (event : StreamEvent) (s : AppState) : AppState :=
  let info : InterruptData :=
    { type := event.interrupt_type
      question := jsOrElse event.question ""
      field := event.field
      options := event.options
      missing_info := event.missing_info
      budget_allocation := event.budget_allocation }
  let s := { s with isLoading := false, interruptData := some info }
  addMessage s
    { type := "interrupt"
      content := jsOrElse event.question "Please provide more information"
      data := some (MsgData.interruptView event.interrupt_type event.options
        event.field event.budget_allocation) }

/-- Common body of the five progress-bearing cases (page.tsx lines
189-242): increment the step counter and append an entry of that kind. -/
def progressCase (kind defaultTxt : String) (event : StreamEvent)
    (s : AppState) : AppState :=
  let s := { s with currentStep := s.currentStep + 1 }
  addMessage s
    { type := kind
      step := event.step
      content := jsOrElse event.content defaultTxt
      data := event.data.map MsgData.payload }

/-- `case 'step'` (page.tsx lines 189-202): a progress entry, plus the
season observation when `event.data?.season` is truthy. -/
def caseStep (event : StreamEvent) (s : AppState) : AppState :=
  let s := progressCase "step" "Processing..." event s
  match event.data with
  | some d => if strTruthy d.season then { s with selectedSeason := d.season } else s
  | none => s

/-- `case 'result'` (page.tsx lines 244-252): the counter jumps to 8 and
the whole event is attached as the entry's data. -/
def caseResult (event : StreamEvent) (s : AppState) : AppState :=
  let s := { s with currentStep := 8 }
  addMessage s
    { type := "result"
      step := event.step
      content := jsOrElse event.content "Complete!"
      data := some (MsgData.fullEvent event) }

/-- `case 'error'` (page.tsx lines 254-257). -/
def caseError (event : StreamEvent) (s : AppState) : AppState :=
  let s := addMessage s
    { type := "error", content := jsOrElse event.content "An error occurred." }
  { s with isLoading := false }

/-- The `switch (event.type)` dispatch (page.tsx lines 143-258); an
unknown tag falls through with no effect. -/
def dispatchEvent (event : StreamEvent) (s : AppState) : AppState :=
  match event.type with
  | "system" => caseSystem event s
  | "message" => caseMessage event s
  | "resume" => s
  | "interrupt" => caseInterrupt event s
  | "step" => caseStep event s
  | "research" => progressCase "research" "Researching destinations..." event s
  | "analysis" => progressCase "analysis" "Analyzing options..." event s
  | "season" => progressCase "season" "Season recommendations..." event s
  | "planning" => progressCase "planning" "Planning itinerary..." event s
  | "result" => caseResult event s
  | "error" => caseError event s
  | _ => s

/-- `handleStreamEvent` (page.tsx lines 136-259): id binding against the
session's render-time `snapshot` of the conversation id, then the tag
dispatch (which only performs absolute or functional state updates and
never reads `conversationId`). -/
def handleStreamEvent (snapshot : Option String) (event : StreamEvent)
    (s : AppState) : AppState :=
  dispatchEvent event (bindConversationId snapshot event s)

/-- The error text appended by both catch blocks (page.tsx lines 99, 130). -/
def tryAgainText : String := "Sorry, I encountered an error. Please try again."

/-- `handleSubmit` (page.tsx lines 80-103): guard on blank input or a
stream already loading; otherwise reset the turn state, echo the user
message, open a `start` session and fold its events; a thrown transport
error appends one error entry; `finally` clears the loading flag.
Returns the new state and the request issued, if any. -/
def handleSubmit (parse : List Char → Option StreamEvent) (s0 : AppState)
    (resp : TransportResponse) : AppState × Option ChatRequest :=
  if (jsTrim s0.input).isEmpty || s0.isLoading then (s0, none)
  else
    let userMessage := (jsTrim s0.input)
    let s := { s0 with
      input := "", isLoading := true, currentStep := 0,
      interruptData := none, selectedSeason := none }
    let s := addMessage s { type := "user", content := userMessage }
    let req : ChatRequest :=
      { message := userMessage
        conversation_id := if strTruthy s0.conversationId then s0.conversationId else none }
    let s :=
      match streamChat parse resp with
      | Except.ok events =>
        events.foldl (fun st e => handleStreamEvent s0.conversationId e st) s
      | Except.error _ => addMessage s { type := "error", content := tryAgainText }
    ({ s with isLoading := false }, some req)

/-- `handleInterruptResponse` (page.tsx lines 105-134): guard on an
unbound conversation id or absent interrupt context (a silent early
return); otherwise consume the context, echo the chosen answer's display
label, open a `resume` session with the value forwarded unchanged, and
fold its events.  Returns the new state and the request issued, if any. -/
def handleInterruptResponse (parse : List Char → Option StreamEvent)
    (s0 : AppState) (value : JsValue) (resp : TransportResponse) :
    AppState × Option ResumeRequest :=
  match s0.conversationId, s0.interruptData with
  | some cid, some currentInterrupt =>
    if cid.isEmpty then (s0, none)
    else
      let s := { s0 with isLoading := true, interruptData := none, userResponse := "" }
      let responseText :=
        if currentInterrupt.type = some "destination_selection" then
          let selected : Option DestOption :=
            match value with
            | JsValue.num n => (currentInterrupt.options.getD []).get? n
            | JsValue.str _ => none
          jsOrElse (selected.bind (fun o => o.name)) ("Option " ++ jsString value)
        else jsString value
      let s := addMessage s { type := "user", content := responseText }
      let req : ResumeRequest := { conversation_id := cid, value := value }
      let s :=
        match resumeChat parse resp with
        | Except.ok events =>
          events.foldl (fun st e => handleStreamEvent s0.conversationId e st) s
        | Except.error _ => addMessage s { type := "error", content := tryAgainText }
      ({ s with isLoading := false }, some req)
  | _, _ => (s0, none)

/-- The default log text of each progress-bearing tag (page.tsx lines
194, 209, 219, 229, 239). -/
def progressDefaultTxt : String → String
  | "step" => "Processing..."
  | "research" => "Researching destinations..."
  | "analysis" => "Analyzing options..."
  | "season" => "Season recommendations..."
  | "planning" => "Planning itinerary..."
  | _ => ""

/-- A parser that rejects every payload; used as a concrete instance. -/
def noParse : List Char → Option StreamEvent := fun _ => none

/-- The destination options of the specification's scenario. -/
def sampleOptions : List DestOption := [{ name := some "Kyoto" }, { name := some "Lisbon" }]

/-- A captured destination-selection interrupt context. -/
def sampleInterrupt : InterruptData :=
  { type := some "destination_selection"
    question := "Pick one"
    options := some sampleOptions }

/-- The initial component state (no messages of interest, idle). -/
def emptyState : AppState :=
  { messages := []
    input := ""
    isLoading := false
    conversationId := none
    currentStep := 0
    interruptData := none
    userResponse := ""
    selectedSeason := none }

/-- An idle state with a bound conversation id. -/
def boundState : AppState := { emptyState with conversationId := some "conv-A" }

/-- An idle state with text typed and no bound id. -/
def readyState : AppState := { emptyState with input := "hi" }

/-- A state awaiting human input: interrupt pending, not loading. -/
def awaitState : AppState :=
  { emptyState with
    input := "hello", conversationId := some "c1",
    interruptData := some sampleInterrupt, currentStep := 2 }

/-- A state with a stream session already open. -/
def streamingState : AppState := { emptyState with isLoading := true, input := "hi" }

/-- An event carrying a conversation identifier different from `conv-A`. -/
def cidEvent : StreamEvent :=
  { type := "message", content := some "hi", conversation_id := some "conv-B" }

/-- An event presenting conversation identifier `a`. -/
def evA : StreamEvent :=
  { type := "message", content := some "m", conversation_id := some "a" }

/-- An event presenting conversation identifier `b`. -/
def evB : StreamEvent :=
  { type := "message", content := some "m", conversation_id := some "b" }

/-- A parser mapping payload `a` to `evA` and payload `b` to `evB`. -/
def cidParse : List Char → Option StreamEvent := fun l =>
  if l = "a".toList then some evA
  else if l = "b".toList then some evB
  else none

/-- A successful response whose body decodes (under `cidParse`) to `evA`
then `evB`: two events of one stream presenting different identifiers. -/
def respAB : TransportResponse :=
  { status := 200, chunks := ["data: a\ndata: b\n".toList] }

/-- A progress event from the specification's scenario. -/
def stepEvent : StreamEvent :=
  { type := "step", step := some "Analyzing", content := some "Looking at options" }

/-- A result event from the specification's scenario. -/
def resultEvent : StreamEvent := { type := "result", content := some "Done" }

/-- A successful response with an empty body. -/
def okEmptyResp : TransportResponse := { status := 200, chunks := [] }

/-- A failed transport response carrying body chunks that are never read. -/
def resp500 : TransportResponse := { status := 500, chunks := ["data: x\n".toList] }

/-! ### Properties of the framed event decoder -/

theorem splitLines_remainder_noNl : ∀ s : List Char, '\n' ∉ (splitLines s).2 := by
  intro s
  induction s with
  | nil => simp [splitLines]
  | cons c rest ih =>
    by_cases hc : c = '\n'
    · simpa [splitLines, hc] using ih
    · rcases h : splitLines rest with ⟨ls, r⟩
      rw [h] at ih
      cases ls with
      | nil => simp [splitLines, hc, h]; exact ⟨fun hh => hc hh.symm, ih⟩
      | cons p ps => simpa [splitLines, hc, h] using ih

theorem splitLines_nlFree : ∀ s : List Char, '\n' ∉ s → splitLines s = ([], s) := by
  intro s
  induction s with
  | nil => simp [splitLines]
  | cons c rest ih =>
    intro h
    have hc : c ≠ '\n' := fun hh => h (hh ▸ List.mem_cons_self c rest)
    have hrest : '\n' ∉ rest := fun hh => h (List.mem_cons_of_mem c hh)
    simp [splitLines, hc, ih hrest]

theorem splitLines_append : ∀ a b : List Char,
    splitLines (a ++ b) =
      ((splitLines a).1 ++ (splitLines ((splitLines a).2 ++ b)).1,
        (splitLines ((splitLines a).2 ++ b)).2) := by
  intro a
  induction a with
  | nil => intro b; simp [splitLines]
  | cons c rest ih =>
    intro b
    by_cases hc : c = '\n'
    · simp [splitLines, hc, ih b]
    · rcases ha : splitLines rest with ⟨ls, r⟩
      have ihb := ih b
      rw [ha] at ihb
      cases ls with
      | nil =>
        rcases hq : splitLines (r ++ b) with ⟨qs, qr⟩
        rw [hq] at ihb
        cases qs with
        | nil => simp_all [splitLines, hc]
        | cons q qs => simp_all [splitLines, hc]
      | cons p ps => simp_all [splitLines, hc]

theorem emitLines_append (parse : List Char → Option α) :
    ∀ xs ys : List (List Char),
      emitLines parse (xs ++ ys) = emitLines parse xs ++ emitLines parse ys := by
  intro xs ys
  induction xs with
  | nil => simp [emitLines]
  | cons l ls ih => simp [emitLines, ih]

theorem streamChatLoop_eq (parse : List Char → Option α) :
    ∀ (chunks : List (List Char)) (buffer : List Char), '\n' ∉ buffer →
      streamChatLoop parse chunks buffer =
        emitLines parse (splitLines (buffer ++ concatChunks chunks)).1 := by
  intro chunks
  induction chunks with
  | nil =>
    intro buffer h
    simp [streamChatLoop, concatChunks, splitLines_nlFree buffer h, emitLines]
  | cons chunk rest ih =>
    intro buffer _h
    have h2 : '\n' ∉ (splitLines (buffer ++ chunk)).2 :=
      splitLines_remainder_noNl (buffer ++ chunk)
    rw [streamChatLoop, ih _ h2, concatChunks, ← List.append_assoc,
      splitLines_append (buffer ++ chunk) (concatChunks rest)]
    simp [emitLines_append]

theorem resumeChatLoop_eq_streamChatLoop (parse : List Char → Option α) :
    ∀ (chunks : List (List Char)) (buffer : List Char),
      resumeChatLoop parse chunks buffer = streamChatLoop parse chunks buffer := by
  intro chunks
  induction chunks with
  | nil => intro buffer; rfl
  | cons chunk rest ih => intro buffer; rw [resumeChatLoop, streamChatLoop, ih]

theorem emitLines_eq_filter (parse : List Char → Option α) :
    ∀ ls : List (List Char),
      emitLines parse ls =
        (ls.filter (fun l => dataMarker.isPrefixOf l)).filterMap
          (fun l => parse (l.drop 6)) := by
  intro ls
  induction ls with
  | nil => simp [emitLines]
  | cons l ls ih =>
    by_cases hp : dataMarker.isPrefixOf l
    · rcases hq : parse (l.drop 6) with _ | e <;>
        simp [emitLines, processLine, hp, hq, ih, List.filter, List.filterMap]
    · simp [emitLines, processLine, hp, ih, List.filter]

/-- C2: the read loop of `streamChat`/`resumeChat` produces the same
parsed event sequence for every way of splitting a complete byte stream
into chunks, including splits falling inside a frame. -/
theorem C2_chunkSplitInvariance (parse : List Char → Option α)
    (cs1 cs2 : List (List Char)) (h : concatChunks cs1 = concatChunks cs2) :
    streamChatLoop parse cs1 [] = streamChatLoop parse cs2 [] := by
  rw [streamChatLoop_eq parse cs1 [] (by simp),
    streamChatLoop_eq parse cs2 [] (by simp), h]

/-- Witness for C2: one stream delivered whole versus split in the middle
of a frame decodes to the same two events. -/
theorem C2_chunkSplitInvariance_wit :
    concatChunks ["data: x\nda".toList, "ta: y\n".toList] =
      concatChunks ["data: x\ndata: y\n".toList] ∧
    streamChatLoop (fun l => some l) ["data: x\nda".toList, "ta: y\n".toList] [] =
      streamChatLoop (fun l => some l) ["data: x\ndata: y\n".toList] [] :=
  ⟨by decide, C2_chunkSplitInvariance (fun l => some l) _ _ (by decide)⟩

/-- C3: a line is emitted as a parsed event only if it bears the literal
`'data: '` marker; all other complete lines are discarded without error,
and the unterminated remainder at end-of-stream is discarded (only the
complete lines `(splitLines ...).1` contribute). -/
theorem C3_dataMarkerFiltering (parse : List Char → Option α)
    (chunks : List (List Char)) :
    streamChatLoop parse chunks [] =
      ((splitLines (concatChunks chunks)).1.filter
          (fun l => dataMarker.isPrefixOf l)).filterMap
        (fun l => parse (l.drop 6)) := by
  rw [streamChatLoop_eq parse chunks [] (by simp), List.nil_append]
  exact emitLines_eq_filter parse _

/-- C4: a frame whose payload fails to parse never terminates the
sequence: the offending frame is dropped and all frames before and after
it are still yielded in their original order. -/
theorem C4_badFrameIsolated (parse : List Char → Option α)
    (chunks pre post : List (List Char)) (bad : List Char)
    (hsplit : (splitLines (concatChunks chunks)).1 = pre ++ bad :: post)
    (hpref : dataMarker.isPrefixOf bad = true)
    (hbad : parse (bad.drop 6) = none) :
    streamChatLoop parse chunks [] = emitLines parse pre ++ emitLines parse post := by
  rw [streamChatLoop_eq parse chunks [] (by simp), List.nil_append, hsplit,
    emitLines_append]
  simp [emitLines, processLine, hpref, hbad]

/-- Witness for C4: a malformed frame between two valid frames is dropped
while both neighbours are still folded in order. -/
theorem C4_badFrameIsolated_wit :
    (splitLines (concatChunks ["data: A\ndata: !\ndata: B\n".toList])).1 =
      ["data: A".toList] ++ "data: !".toList :: ["data: B".toList] ∧
    dataMarker.isPrefixOf "data: !".toList = true ∧
    (fun l : List Char => if l.contains '!' then none else some l)
        ("data: !".toList.drop 6) = none ∧
    streamChatLoop (fun l : List Char => if l.contains '!' then none else some l)
        ["data: A\ndata: !\ndata: B\n".toList] [] =
      emitLines (fun l : List Char => if l.contains '!' then none else some l)
          ["data: A".toList] ++
        emitLines (fun l : List Char => if l.contains '!' then none else some l)
          ["data: B".toList] :=
  ⟨by decide, by decide, by decide,
    C4_badFrameIsolated (fun l : List Char => if l.contains '!' then none else some l)
      ["data: A\ndata: !\ndata: B\n".toList] ["data: A".toList] ["data: B".toList]
      "data: !".toList (by decide) (by decide) (by decide)⟩

/-- C10: the framed event decoder behaves identically in the start-session
operation (`streamChat`) and the resume-session operation (`resumeChat`):
on every transport response both yield exactly the same result. -/
theorem C10_decoderShared (parse : List Char → Option α)
    (resp : TransportResponse) :
    streamChat parse resp = resumeChat parse resp := by
  unfold streamChat resumeChat
  rw [resumeChatLoop_eq_streamChatLoop]

/-! ### Properties of the conversation state machine fold -/

theorem bindConversationId_fields (snap : Option String) (e : StreamEvent)
    (s : AppState) :
    (bindConversationId snap e s).messages = s.messages ∧
    (bindConversationId snap e s).currentStep = s.currentStep ∧
    (bindConversationId snap e s).isLoading = s.isLoading ∧
    (bindConversationId snap e s).interruptData = s.interruptData ∧
    (bindConversationId snap e s).selectedSeason = s.selectedSeason := by
  unfold bindConversationId
  split <;> simp

theorem caseSystem_fields (e : StreamEvent) (s : AppState) :
    (caseSystem e s).conversationId = s.conversationId ∧
    (caseSystem e s).currentStep = s.currentStep ∧
    (caseSystem e s).isLoading = s.isLoading ∧
    (caseSystem e s).interruptData = s.interruptData := by
  unfold caseSystem
  cases hc : e.content
  · simp
  · dsimp only
    split_ifs <;> simp [addMessage]

theorem caseMessage_fields (e : StreamEvent) (s : AppState) :
    (caseMessage e s).conversationId = s.conversationId ∧
    (caseMessage e s).currentStep = s.currentStep ∧
    (caseMessage e s).isLoading = s.isLoading ∧
    (caseMessage e s).interruptData = s.interruptData := by
  unfold caseMessage
  cases hc : e.content
  · simp
  · dsimp only
    split_ifs <;> simp [addMessage]

theorem caseInterrupt_fields (e : StreamEvent) (s : AppState) :
    (caseInterrupt e s).conversationId = s.conversationId ∧
    (caseInterrupt e s).currentStep = s.currentStep := by
  simp [caseInterrupt, addMessage]

theorem progressCase_spec (k d : String) (e : StreamEvent) (s : AppState) :
    (progressCase k d e s).currentStep = s.currentStep + 1 ∧
    (progressCase k d e s).messages = s.messages ++
      [{ type := k
         step := e.step
         content := jsOrElse e.content d
         data := e.data.map MsgData.payload }] ∧
    (progressCase k d e s).conversationId = s.conversationId ∧
    (progressCase k d e s).isLoading = s.isLoading ∧
    (progressCase k d e s).interruptData = s.interruptData := by
  simp [progressCase, addMessage]

theorem caseStep_spec (e : StreamEvent) (s : AppState) :
    (caseStep e s).currentStep = s.currentStep + 1 ∧
    (caseStep e s).messages = s.messages ++
      [{ type := "step"
         step := e.step
         content := jsOrElse e.content "Processing..."
         data := e.data.map MsgData.payload }] ∧
    (caseStep e s).conversationId = s.conversationId ∧
    (caseStep e s).isLoading = s.isLoading ∧
    (caseStep e s).interruptData = s.interruptData := by
  unfold caseStep
  cases hd : e.data
  · simp [progressCase, addMessage, hd]
  · dsimp only
    split_ifs <;> simp [progressCase, addMessage, hd]

theorem caseResult_spec (e : StreamEvent) (s : AppState) :
    (caseResult e s).currentStep = 8 ∧
    (caseResult e s).messages = s.messages ++
      [{ type := "result"
         step := e.step
         content := jsOrElse e.content "Complete!"
         data := some (MsgData.fullEvent e) }] ∧
    (caseResult e s).conversationId = s.conversationId ∧
    (caseResult e s).interruptData = s.interruptData := by
  simp [caseResult, addMessage]

theorem caseError_fields (e : StreamEvent) (s : AppState) :
    (caseError e s).conversationId = s.conversationId ∧
    (caseError e s).currentStep = s.currentStep ∧
    (caseError e s).interruptData = s.interruptData := by
  simp [caseError, addMessage]

theorem dispatch_conversationId (e : StreamEvent) (s : AppState) :
    (dispatchEvent e s).conversationId = s.conversationId := by
  unfold dispatchEvent
  split
  · exact (caseSystem_fields e s).1
  · exact (caseMessage_fields e s).1
  · rfl
  · exact (caseInterrupt_fields e s).1
  · exact (caseStep_spec e s).2.2.1
  · exact (progressCase_spec _ _ e s).2.2.1
  · exact (progressCase_spec _ _ e s).2.2.1
  · exact (progressCase_spec _ _ e s).2.2.1
  · exact (progressCase_spec _ _ e s).2.2.1
  · exact (caseResult_spec e s).2.2.1
  · exact (caseError_fields e s).1
  · rfl

theorem dispatch_interruptData (e : StreamEvent) (s : AppState)
    (h : e.type ≠ "interrupt") :
    (dispatchEvent e s).interruptData = s.interruptData := by
  unfold dispatchEvent
  split
  · exact (caseSystem_fields e s).2.2.2
  · exact (caseMessage_fields e s).2.2.2
  · rfl
  · simp_all
  · exact (caseStep_spec e s).2.2.2.2
  · exact (progressCase_spec _ _ e s).2.2.2.2
  · exact (progressCase_spec _ _ e s).2.2.2.2
  · exact (progressCase_spec _ _ e s).2.2.2.2
  · exact (progressCase_spec _ _ e s).2.2.2.2
  · exact (caseResult_spec e s).2.2.2
  · exact (caseError_fields e s).2.2
  · rfl

theorem handleStreamEvent_interruptData (snap : Option String)
    (e : StreamEvent) (s : AppState) (h : e.type ≠ "interrupt") :
    (handleStreamEvent snap e s).interruptData = s.interruptData := by
  unfold handleStreamEvent
  rw [dispatch_interruptData e _ h]
  exact (bindConversationId_fields snap e s).2.2.2.1

theorem foldl_interruptData_none (snap : Option String)
    (events : List StreamEvent) :
    ∀ s : AppState, s.interruptData = none →
      (∀ e ∈ events, e.type ≠ "interrupt") →
      (events.foldl (fun st e => handleStreamEvent snap e st)
        s).interruptData = none := by
  induction events with
  | nil => intro s hs _; exact hs
  | cons e rest ih =>
    intro s hs hall
    simp only [List.foldl_cons]
    exact ih _ ((handleStreamEvent_interruptData snap e s
        (hall e (List.mem_cons_self e rest))).trans hs)
      (fun x hx => hall x (List.mem_cons_of_mem e hx))

theorem handleStreamEvent_cid_of_snap (snap : Option String)
    (e : StreamEvent) (s : AppState) (h : strTruthy snap = true) :
    (handleStreamEvent snap e s).conversationId = s.conversationId := by
  unfold handleStreamEvent
  rw [dispatch_conversationId]
  unfold bindConversationId
  simp [h]

theorem foldl_cid_of_snap (snap : Option String)
    (events : List StreamEvent) :
    ∀ s : AppState, strTruthy snap = true →
      (events.foldl (fun st e => handleStreamEvent snap e st)
        s).conversationId = s.conversationId := by
  induction events with
  | nil => intro s _; rfl
  | cons e rest ih =>
    intro s h
    simp only [List.foldl_cons]
    exact (ih _ h).trans (handleStreamEvent_cid_of_snap snap e s h)

theorem handleSubmit_cid (parse : List Char → Option StreamEvent)
    (s0 : AppState) (resp : TransportResponse)
    (h : strTruthy s0.conversationId = true) :
    (handleSubmit parse s0 resp).1.conversationId = s0.conversationId := by
  unfold handleSubmit
  split
  · rfl
  · rcases hr : streamChat parse resp with err | evs
    · simp [hr, addMessage]
    · simp only [hr]
      rw [foldl_cid_of_snap s0.conversationId evs _ h]
      simp [addMessage]

theorem hir_cid (parse : List Char → Option StreamEvent) (s0 : AppState)
    (v : JsValue) (resp : TransportResponse) :
    (handleInterruptResponse parse s0 v resp).1.conversationId =
      s0.conversationId := by
  rcases hc : s0.conversationId with _ | cid
  · rcases hi : s0.interruptData with _ | ctx <;>
      simp [handleInterruptResponse, hc, hi]
  · rcases hi : s0.interruptData with _ | ctx
    · simp [handleInterruptResponse, hc, hi]
    · by_cases hne : cid.isEmpty
      · simp [handleInterruptResponse, hc, hi, hne]
      · have ht : strTruthy (some cid) = true := by simp [strTruthy, hne]
        rcases hr : resumeChat parse resp with err | evs
        · simp [handleInterruptResponse, hc, hi, hne, hr, addMessage]
        · simp only [handleInterruptResponse, hc, hi, hne, hr]
          simp only [Bool.false_eq_true, if_false]
          rw [foldl_cid_of_snap (some cid) evs _ ht]
          simp [addMessage]

/-- C1 counterexample: `handleStreamEvent` guards the binding against the
render-time snapshot of the identifier, which stays at its stream-start
value for the whole session.  From an unbound state, a stream presenting
identifiers `a` then `b` binds `a` on the first event and *rebinds* `b`
on the second — both as a direct two-event fold and through
`handleSubmit` on a stream whose frames decode to those events — so a
bound identifier does change when a later event of the same stream
presents a different one. -/
theorem C1_conversationIdRebind_cex :
    emptyState.conversationId = none ∧
    (handleStreamEvent emptyState.conversationId evA
        emptyState).conversationId = some "a" ∧
    (handleStreamEvent emptyState.conversationId evB
        (handleStreamEvent emptyState.conversationId evA
          emptyState)).conversationId = some "b" ∧
    readyState.conversationId = none ∧
    streamChat cidParse respAB = Except.ok [evA, evB] ∧
    (handleSubmit cidParse readyState respAB).1.conversationId = some "b" :=
  ⟨rfl, rfl, rfl, rfl, by rfl, by decide⟩

/-- C1 (amended): the binding guard of every event reads the conversation
identifier as it was when the stream session opened (the render-time
closure snapshot), not the per-event state.  Consequently: an event whose
session opened with a (truthy) identifier bound never changes it — hence
once a session opens bound, the identifier is immutable for that session
and, the entry points folding with their call-time snapshot, for every
later session (`handleSubmit` preserves a bound id on any response, and
`handleInterruptResponse` never changes it at all); an event carrying no
truthy identifier never affects it; but in the one session that opens
unbound, every event carrying a truthy identifier writes it, so the
committed identifier is the last such event's (last-bind-wins within the
binding session), not the first's. -/
theorem C1_conversationIdBinding :
    (∀ (snap : Option String) (e : StreamEvent) (s : AppState),
        strTruthy snap = true →
        (handleStreamEvent snap e s).conversationId = s.conversationId) ∧
    (∀ (snap : Option String) (e : StreamEvent) (s : AppState),
        strTruthy e.conversation_id = false →
        (handleStreamEvent snap e s).conversationId = s.conversationId) ∧
    (∀ (snap : Option String) (e : StreamEvent) (s : AppState),
        strTruthy snap = false → strTruthy e.conversation_id = true →
        (handleStreamEvent snap e s).conversationId = e.conversation_id) ∧
    (∀ (snap : Option String) (events : List StreamEvent) (s : AppState),
        strTruthy snap = true →
        (events.foldl (fun st e => handleStreamEvent snap e st)
          s).conversationId = s.conversationId) ∧
    (∀ (parse : List Char → Option StreamEvent) (s0 : AppState)
        (resp : TransportResponse), strTruthy s0.conversationId = true →
        (handleSubmit parse s0 resp).1.conversationId = s0.conversationId) ∧
    (∀ (parse : List Char → Option StreamEvent) (s0 : AppState) (v : JsValue)
        (resp : TransportResponse),
        (handleInterruptResponse parse s0 v resp).1.conversationId =
          s0.conversationId) := by
  refine ⟨?_, ?_, ?_, fun snap events s h => foldl_cid_of_snap snap events s h,
    handleSubmit_cid, hir_cid⟩ <;> intro snap e s <;>
    rw [handleStreamEvent, dispatch_conversationId] <;> unfold bindConversationId
  · intro h; simp [h]
  · intro h; simp [h]
  · intro h1 h2; simp [h1, h2]

/-- Witness for C1 (amended): with `conv-A` bound at session start, an
event presenting `conv-B` leaves the binding unchanged; a whole
`handleSubmit` session on a state with a bound id preserves it. -/
theorem C1_conversationIdBinding_wit :
    strTruthy boundState.conversationId = true ∧
    (handleStreamEvent boundState.conversationId cidEvent
        boundState).conversationId = boundState.conversationId ∧
    strTruthy awaitState.conversationId = true ∧
    (handleSubmit noParse awaitState okEmptyResp).1.conversationId =
      awaitState.conversationId :=
  ⟨by decide,
    C1_conversationIdBinding.1 boundState.conversationId cidEvent boundState
      (by decide),
    by decide,
    C1_conversationIdBinding.2.2.2.2.1 noParse awaitState okEmptyResp
      (by decide)⟩

/-- C5: on a non-2xx transport response the session raises the
transport-failure signal before any event is produced, the caller appends
the user echo and exactly one error entry and nothing else (in particular
no progress or result entries), and the conversation ends idle and not
busy. -/
theorem C5_transportFailureIdle (parse : List Char → Option StreamEvent)
    (s0 : AppState) (resp : TransportResponse)
    (hst : ¬(200 ≤ resp.status ∧ resp.status ≤ 299))
    (hin : (jsTrim s0.input).isEmpty = false) (hld : s0.isLoading = false) :
    streamChat parse resp =
      Except.error ("HTTP error! status: " ++ toString resp.status) ∧
    (handleSubmit parse s0 resp).1.messages =
      s0.messages ++
        [{ type := "user", content := (jsTrim s0.input) },
          { type := "error", content := tryAgainText }] ∧
    (handleSubmit parse s0 resp).1.isLoading = false ∧
    (handleSubmit parse s0 resp).1.interruptData = none ∧
    (handleSubmit parse s0 resp).1.currentStep = 0 := by
  have hok : respOk resp = false := by
    simp only [respOk, Bool.and_eq_false_iff, decide_eq_false_iff_not]
    omega
  refine ⟨by simp [streamChat, hok], ?_, ?_, ?_, ?_⟩ <;>
    simp [handleSubmit, hin, hld, streamChat, hok, addMessage]

/-- Witness for C5: an HTTP 500 response yields no events, appends the
user echo and one error entry, and leaves the state idle. -/
theorem C5_transportFailureIdle_wit :
    ¬(200 ≤ resp500.status ∧ resp500.status ≤ 299) ∧
    (jsTrim readyState.input).isEmpty = false ∧
    readyState.isLoading = false ∧
    (streamChat noParse resp500 =
      Except.error ("HTTP error! status: " ++ toString resp500.status) ∧
    (handleSubmit noParse readyState resp500).1.messages =
      readyState.messages ++
        [{ type := "user", content := (jsTrim readyState.input) },
          { type := "error", content := tryAgainText }] ∧
    (handleSubmit noParse readyState resp500).1.isLoading = false ∧
    (handleSubmit noParse readyState resp500).1.interruptData = none ∧
    (handleSubmit noParse readyState resp500).1.currentStep = 0) :=
  ⟨by decide, by decide, by decide,
    C5_transportFailureIdle noParse readyState resp500 (by decide) (by decide)
      (by decide)⟩

/-- C8: every progress-bearing event (`step`, `research`, `analysis`,
`season`, `planning`) increments the step counter by exactly one and
appends a log entry of that kind; a `result` event sets the counter to
its maximum 8 and appends a result entry; the counter is reset to zero by
a turn-initiating submission but not by answering an interrupt. -/
theorem C8_progressCounterBehaviour :
    (∀ (snap : Option String) (e : StreamEvent) (s : AppState),
        e.type = "step" ∨ e.type = "research" ∨ e.type = "analysis" ∨
          e.type = "season" ∨ e.type = "planning" →
        (handleStreamEvent snap e s).currentStep = s.currentStep + 1 ∧
        (handleStreamEvent snap e s).messages = s.messages ++
          [{ type := e.type
             step := e.step
             content := jsOrElse e.content (progressDefaultTxt e.type)
             data := e.data.map MsgData.payload }]) ∧
    (∀ (snap : Option String) (e : StreamEvent) (s : AppState),
        e.type = "result" →
        (handleStreamEvent snap e s).currentStep = 8 ∧
        (handleStreamEvent snap e s).messages = s.messages ++
          [{ type := "result"
             step := e.step
             content := jsOrElse e.content "Complete!"
             data := some (MsgData.fullEvent e) }]) ∧
    (∀ (parse : List Char → Option StreamEvent) (s0 : AppState)
        (resp : TransportResponse),
        (jsTrim s0.input).isEmpty = false → s0.isLoading = false →
        respOk resp = true → streamChatLoop parse resp.chunks [] = [] →
        (handleSubmit parse s0 resp).1.currentStep = 0) ∧
    (∀ (parse : List Char → Option StreamEvent) (s0 : AppState) (v : JsValue)
        (resp : TransportResponse) (cid : String) (ctx : InterruptData),
        s0.conversationId = some cid → cid.isEmpty = false →
        s0.interruptData = some ctx →
        respOk resp = true → resumeChatLoop parse resp.chunks [] = [] →
        (handleInterruptResponse parse s0 v resp).1.currentStep =
          s0.currentStep) := by
  refine ⟨?_, ?_, ?_, ?_⟩
  · intro snap e s h
    rcases h with h | h | h | h | h <;>
      simp [handleStreamEvent, dispatchEvent, h, caseStep_spec, progressCase_spec,
        bindConversationId_fields, progressDefaultTxt]
  · intro snap e s h
    simp [handleStreamEvent, dispatchEvent, h, caseResult_spec,
      bindConversationId_fields]
  · intro parse s0 resp hin hld hok hev
    simp [handleSubmit, hin, hld, streamChat, hok, hev, addMessage]
  · intro parse s0 v resp cid ctx hcid hne hctx hok hev
    simp [handleInterruptResponse, hcid, hctx, hne, resumeChat, hok, hev,
      addMessage]

/-- Witness for C8: the specification's scenario — a `step` event then a
`result` event — increments the counter once then jumps it to 8; a fresh
submission resets the counter; answering an interrupt does not. -/
theorem C8_progressCounterBehaviour_wit :
    ((handleStreamEvent none stepEvent emptyState).currentStep =
        emptyState.currentStep + 1 ∧
      (handleStreamEvent none stepEvent emptyState).messages =
        emptyState.messages ++
          [{ type := stepEvent.type
             step := stepEvent.step
             content := jsOrElse stepEvent.content
               (progressDefaultTxt stepEvent.type)
             data := stepEvent.data.map MsgData.payload }]) ∧
    ((handleStreamEvent boundState.conversationId resultEvent
        boundState).currentStep = 8 ∧
      (handleStreamEvent boundState.conversationId resultEvent
          boundState).messages =
        boundState.messages ++
          [{ type := "result"
             step := resultEvent.step
             content := jsOrElse resultEvent.content "Complete!"
             data := some (MsgData.fullEvent resultEvent) }]) ∧
    (handleSubmit noParse readyState okEmptyResp).1.currentStep = 0 ∧
    (handleInterruptResponse noParse awaitState (JsValue.num 1)
        okEmptyResp).1.currentStep = awaitState.currentStep :=
  ⟨C8_progressCounterBehaviour.1 none stepEvent emptyState (Or.inl rfl),
    C8_progressCounterBehaviour.2.1 boundState.conversationId resultEvent
      boundState rfl,
    C8_progressCounterBehaviour.2.2.1 noParse readyState okEmptyResp
      (by decide) (by decide) (by decide) (by decide),
    C8_progressCounterBehaviour.2.2.2 noParse awaitState (JsValue.num 1)
      okEmptyResp "c1" sampleInterrupt (by decide) (by decide) (by decide)
      (by decide) (by decide)⟩

theorem hir_noContext (parse : List Char → Option StreamEvent) (s : AppState)
    (v : JsValue) (resp : TransportResponse) (h : s.interruptData = none) :
    handleInterruptResponse parse s v resp = (s, none) := by
  rcases hc : s.conversationId with _ | cid <;>
    simp [handleInterruptResponse, hc, h]

theorem hir_notTruthy (parse : List Char → Option StreamEvent) (s : AppState)
    (v : JsValue) (resp : TransportResponse)
    (h : strTruthy s.conversationId = false) :
    handleInterruptResponse parse s v resp = (s, none) := by
  rcases hc : s.conversationId with _ | cid
  · rcases hi : s.interruptData with _ | ctx <;>
      simp [handleInterruptResponse, hc, hi]
  · rw [hc] at h
    simp only [strTruthy, Bool.not_eq_false'] at h
    rcases hi : s.interruptData with _ | ctx <;>
      simp [handleInterruptResponse, hc, hi, h]

theorem hir_request (parse : List Char → Option StreamEvent) (s : AppState)
    (v : JsValue) (resp : TransportResponse) (cid : String)
    (ctx : InterruptData) (hcid : s.conversationId = some cid)
    (hne : cid.isEmpty = false) (hctx : s.interruptData = some ctx) :
    (handleInterruptResponse parse s v resp).2 =
      some { conversation_id := cid, value := v } ∧
    (handleInterruptResponse parse s v resp).1.isLoading = false := by
  rcases hr : resumeChat parse resp with err | events <;>
    simp [handleInterruptResponse, hcid, hctx, hne, hr]

theorem hir_consumed (parse : List Char → Option StreamEvent) (s : AppState)
    (v : JsValue) (resp : TransportResponse) (cid : String)
    (ctx : InterruptData) (hcid : s.conversationId = some cid)
    (hne : cid.isEmpty = false) (hctx : s.interruptData = some ctx)
    (hok : respOk resp = true)
    (hall : ∀ e ∈ resumeChatLoop parse resp.chunks [], e.type ≠ "interrupt") :
    (handleInterruptResponse parse s v resp).1.interruptData = none := by
  have hres : resumeChat parse resp =
      Except.ok (resumeChatLoop parse resp.chunks []) := by
    simp [resumeChat, hok]
  simp only [handleInterruptResponse, hcid, hctx, hne, hres]
  simp only [Bool.false_eq_true, if_false]
  exact foldl_interruptData_none _ _ _ (by simp [addMessage]) hall

/-- C6 counterexample: in a state with no pending interrupt context the
call does not fail with a precondition error — it returns normally with
the state entirely unchanged (in particular no error entry is appended,
so no failure is reported) and no network call. -/
theorem C6_answerOutsideAwait_cex :
    boundState.interruptData = none ∧
    handleInterruptResponse noParse boundState (JsValue.num 0) okEmptyResp =
      (boundState, none) ∧
    (handleInterruptResponse noParse boundState (JsValue.num 0)
        okEmptyResp).1.messages = boundState.messages :=
  ⟨rfl, rfl, rfl⟩

/-- C6 (amended): `submitAnswer` is effective only while an unconsumed
interrupt context exists and a conversation id is bound; in any other
state it is silently ignored — it returns with no state change and no
network call, raising no precondition error; when valid it forwards the
answer and consumes the context exactly once, so a second answer for the
same context is silently rejected (no request), not accepted. -/
theorem C6_answerPreconditions :
    (∀ (parse : List Char → Option StreamEvent) (s : AppState) (v : JsValue)
        (resp : TransportResponse), s.interruptData = none →
        handleInterruptResponse parse s v resp = (s, none)) ∧
    (∀ (parse : List Char → Option StreamEvent) (s : AppState) (v : JsValue)
        (resp : TransportResponse), strTruthy s.conversationId = false →
        handleInterruptResponse parse s v resp = (s, none)) ∧
    (∀ (parse : List Char → Option StreamEvent) (s : AppState) (v : JsValue)
        (resp : TransportResponse) (cid : String) (ctx : InterruptData),
        s.conversationId = some cid → cid.isEmpty = false →
        s.interruptData = some ctx →
        (handleInterruptResponse parse s v resp).2 =
          some { conversation_id := cid, value := v } ∧
        (handleInterruptResponse parse s v resp).1.isLoading = false) ∧
    (∀ (parse : List Char → Option StreamEvent) (s : AppState)
        (v v2 : JsValue) (resp resp2 : TransportResponse) (cid : String)
        (ctx : InterruptData),
        s.conversationId = some cid → cid.isEmpty = false →
        s.interruptData = some ctx → respOk resp = true →
        (∀ e ∈ resumeChatLoop parse resp.chunks [], e.type ≠ "interrupt") →
        handleInterruptResponse parse
            (handleInterruptResponse parse s v resp).1 v2 resp2 =
          ((handleInterruptResponse parse s v resp).1, none)) := by
  refine ⟨hir_noContext, hir_notTruthy, hir_request, ?_⟩
  intro parse s v v2 resp resp2 cid ctx hcid hne hctx hok hall
  exact hir_noContext parse _ v2 resp2
    (hir_consumed parse s v resp cid ctx hcid hne hctx hok hall)

/-- Witness for C6: answering with no pending interrupt is a silent no-op;
after a valid answer the same context cannot be answered again. -/
theorem C6_answerPreconditions_wit :
    readyState.interruptData = none ∧
    handleInterruptResponse noParse readyState (JsValue.num 0) okEmptyResp =
      (readyState, none) ∧
    handleInterruptResponse noParse
        (handleInterruptResponse noParse awaitState (JsValue.num 1)
          okEmptyResp).1 (JsValue.num 0) okEmptyResp =
      ((handleInterruptResponse noParse awaitState (JsValue.num 1)
          okEmptyResp).1, none) :=
  ⟨rfl,
    C6_answerPreconditions.1 noParse readyState (JsValue.num 0) okEmptyResp rfl,
    C6_answerPreconditions.2.2.2 noParse awaitState (JsValue.num 1)
      (JsValue.num 0) okEmptyResp okEmptyResp "c1" sampleInterrupt rfl
      (by decide) rfl (by decide) (by decide)⟩

/-- C7 counterexample: invoked while awaiting human input (a pending
interrupt, loading flag off) with non-blank input, `handleSubmit` is not
rejected: it opens a new stream session (a request is issued) and
discards the pending interrupt context. -/
theorem C7_submitDuringAwait_cex :
    awaitState.isLoading = false ∧
    awaitState.interruptData = some sampleInterrupt ∧
    (handleSubmit noParse awaitState okEmptyResp).2 =
      some { message := "hello", conversation_id := some "c1" } ∧
    (handleSubmit noParse awaitState okEmptyResp).1.interruptData = none :=
  ⟨rfl, rfl, rfl, rfl⟩

/-- C7 (amended): `submitMessage` is rejected (a silent no-op that opens
no stream session) exactly when the trimmed input is blank or a session
is already streaming (`isLoading`); whenever the loading flag is off and
the input is non-blank — including while awaiting human input — it does
open a new stream session (the interface separately disables the input
controls while an interrupt is pending). -/
theorem C7_submitPreconditions :
    (∀ (parse : List Char → Option StreamEvent) (s : AppState)
        (resp : TransportResponse), s.isLoading = true →
        handleSubmit parse s resp = (s, none)) ∧
    (∀ (parse : List Char → Option StreamEvent) (s : AppState)
        (resp : TransportResponse), (jsTrim s.input).isEmpty = true →
        handleSubmit parse s resp = (s, none)) ∧
    (∀ (parse : List Char → Option StreamEvent) (s : AppState)
        (resp : TransportResponse), s.isLoading = false →
        (jsTrim s.input).isEmpty = false →
        (handleSubmit parse s resp).2 =
          some { message := jsTrim s.input
                 conversation_id :=
                   if strTruthy s.conversationId then s.conversationId
                   else none }) := by
  refine ⟨?_, ?_, ?_⟩
  · intro parse s resp h
    simp [handleSubmit, h]
  · intro parse s resp h
    simp [handleSubmit, h]
  · intro parse s resp h1 h2
    rcases hr : streamChat parse resp with err | evs <;>
      simp [handleSubmit, h1, h2, hr]

/-- Witness for C7: while a session is streaming, a submission is a
silent no-op and opens no session. -/
theorem C7_submitPreconditions_wit :
    streamingState.isLoading = true ∧
    handleSubmit noParse streamingState okEmptyResp =
      (streamingState, none) :=
  ⟨rfl, C7_submitPreconditions.1 noParse streamingState okEmptyResp rfl⟩

/-- C9: answering a destination-selection interrupt with a zero-based
index echoes that option's display name as the user entry — falling back
to the positional label `Option <index>` when the option is missing or
lacks a name — and forwards the index unchanged as the `value` of the
resume request body. -/
theorem C9_destinationEcho :
    (∀ (parse : List Char → Option StreamEvent) (s0 : AppState)
        (resp : TransportResponse) (i : Nat) (cid nm : String)
        (ctx : InterruptData) (o : DestOption),
        s0.conversationId = some cid → cid.isEmpty = false →
        s0.interruptData = some ctx →
        ctx.type = some "destination_selection" →
        respOk resp = true → resumeChatLoop parse resp.chunks [] = [] →
        (ctx.options.getD [])[i]? = some o → o.name = some nm →
        nm.isEmpty = false →
        (handleInterruptResponse parse s0 (JsValue.num i) resp).2 =
          some { conversation_id := cid, value := JsValue.num i } ∧
        (handleInterruptResponse parse s0 (JsValue.num i) resp).1.messages =
          s0.messages ++ [{ type := "user", content := nm }]) ∧
    (∀ (parse : List Char → Option StreamEvent) (s0 : AppState)
        (resp : TransportResponse) (i : Nat) (cid : String)
        (ctx : InterruptData),
        s0.conversationId = some cid → cid.isEmpty = false →
        s0.interruptData = some ctx →
        ctx.type = some "destination_selection" →
        respOk resp = true → resumeChatLoop parse resp.chunks [] = [] →
        (ctx.options.getD [])[i]?.bind (fun o => o.name) = none →
        (handleInterruptResponse parse s0 (JsValue.num i) resp).1.messages =
          s0.messages ++
            [{ type := "user", content := "Option " ++ toString i }]) := by
  constructor
  · intro parse s0 resp i cid nm ctx o hcid hne hctx hty hok hev hopt hname hnm
    have hres : resumeChat parse resp = Except.ok [] := by
      simp [resumeChat, hok, hev]
    constructor <;>
      simp [handleInterruptResponse, hcid, hctx, hne, hty, hres, hopt, hname,
        jsOrElse, hnm, addMessage]
  · intro parse s0 resp i cid ctx hcid hne hctx hty hok hev hnone
    have hres : resumeChat parse resp = Except.ok [] := by
      simp [resumeChat, hok, hev]
    simp [handleInterruptResponse, hcid, hctx, hne, hty, hres, hnone, jsOrElse,
      jsString, addMessage]

/-- Witness for C9: the specification's scenario — options Kyoto/Lisbon,
answer index 1 — echoes `"Lisbon"` and forwards `value = 1`. -/
theorem C9_destinationEcho_wit :
    (handleInterruptResponse noParse awaitState (JsValue.num 1)
        okEmptyResp).2 =
      some { conversation_id := "c1", value := JsValue.num 1 } ∧
    (handleInterruptResponse noParse awaitState (JsValue.num 1)
        okEmptyResp).1.messages =
      awaitState.messages ++ [{ type := "user", content := "Lisbon" }] :=
  C9_destinationEcho.1 noParse awaitState okEmptyResp 1 "c1" "Lisbon"
    sampleInterrupt { name := some "Lisbon" } rfl (by decide) rfl rfl
    (by decide) rfl (by decide) rfl (by decide)

end WakeWander
